import Mathlib

/-!
# Verification of the snoowrap 0.9.4 request client

Shallow embedding of `src/snoowrap.js` (the requester class) and of the
request pipeline it delegates to.  The pipeline modules
(`request_handler.js`, `default_config.js`, `errors.js`) are not part of
the source tree under verification; where a claim is decided by them, the
corresponding definition is modelled from the specification and is marked
as such in its doc comment.

JavaScript conventions used throughout the embedding:
* an optional string property is `Option String`; `none` is `undefined`;
* JS truthiness of such a property: `undefined` and the empty string are
  falsy, every other string is truthy (`optTruthy` below);
* exceptions become `Except` values.
-/

namespace Snoowrap

/-- JS truthiness of an optional string property: `undefined` (`none`) and
the empty string `""` are falsy; every other string is truthy. -/
def optTruthy : Option String → Bool
  | none => false
  | some s => !s.isEmpty

/-- The error classes of `errors.js` that `snoowrap.js` throws or that the
spec's error taxonomy names (only the constructors used by the claims). -/
inductive SnooError where
  | MissingUserAgentError
  | NoCredentialsError
  | RateLimitExceededError
  | RequestError (status_code : Nat)
  | InvalidMethodCallError (msg : String)
deriving DecidableEq, Repr

/-- The named argument object accepted by the `snoowrap` constructor
(`src/snoowrap.js`, line 27): `{user_agent, client_id, client_secret,
refresh_token, access_token}`, each possibly absent. -/
structure ConstructorOptions where
  user_agent : Option String := none
  client_id : Option String := none
  client_secret : Option String := none
  refresh_token : Option String := none
  access_token : Option String := none
deriving DecidableEq, Repr

/-- The credential fields a `snoowrap` instance stores after successful
construction (`src/snoowrap.js`, lines 34-38). -/
structure Client where
  user_agent : Option String
  client_id : Option String
  client_secret : Option String
  refresh_token : Option String
  access_token : Option String
deriving DecidableEq, Repr

/-- The credential condition of `src/snoowrap.js` line 31: `access_token`
is truthy, or `client_id`, `client_secret` and `refresh_token` all are. -/
def credentialsOk (o : ConstructorOptions) : Bool :=
  optTruthy o.access_token ||
    (optTruthy o.client_id && optTruthy o.client_secret && optTruthy o.refresh_token)

/-- The `snoowrap` constructor (`src/snoowrap.js`, lines 27-41): throws
`MissingUserAgentError` when `user_agent` is falsy, then
`NoCredentialsError` when neither an access token nor a complete
client-id/client-secret/refresh-token triple is supplied, and otherwise
stores the five credential fields on the instance. -/
def construct (o : ConstructorOptions) : Except SnooError Client :=
  if !optTruthy o.user_agent then
    .error .MissingUserAgentError
  else if !optTruthy o.access_token &&
      !(optTruthy o.client_id && optTruthy o.client_secret && optTruthy o.refresh_token) then
    .error .NoCredentialsError
  else
    .ok { user_agent := o.user_agent, client_id := o.client_id,
          client_secret := o.client_secret, refresh_token := o.refresh_token,
          access_token := o.access_token }

/-- `revoke_access_token` (`src/snoowrap.js`, lines 89-93): POSTs the
access token to `api/v1/revoke_token`; when that request succeeds, the
`.then` continuation clears `access_token`.  The network outcome is the
boolean parameter; a failed request rejects the promise and leaves the
instance unchanged, which we render as `none`. -/
def revoke_access_token (c : Client) (networkOk : Bool) : Option Client :=
  if networkOk then some { c with access_token := none } else none

/-- `revoke_refresh_token` (`src/snoowrap.js`, lines 102-107): POSTs the
refresh token to `api/v1/revoke_token`; when that request succeeds, the
`.then` continuation clears `refresh_token` and also `access_token`
("Revoking a refresh token also revokes any associated access tokens"). -/
def revoke_refresh_token (c : Client) (networkOk : Bool) : Option Client :=
  if networkOk then some { c with refresh_token := none, access_token := none } else none

/-! ## The `inspect` method (`src/snoowrap.js`, lines 108-118)

`inspect` renders the instance's own enumerable properties after dropping
every key that starts with an underscore (`omitBy`) and replacing the
value of each confidential key by `value && '(redacted)'` (`mapValues`).
JS values that can sit in those properties are modelled by `JsValue`. -/

/-- A JS value stored in an own property of the requester: `undefined`, a
string, or a non-string object (the `_config` object, the `_throttle`
promise).  The `tag` of `obj` only names which object it is. -/
inductive JsValue where
  | undef
  | str (s : String)
  | obj (tag : String)
deriving DecidableEq, Repr

/-- JS truthiness of a `JsValue`: `undefined` and `''` are falsy; every
other string and every object is truthy. -/
def jsTruthy : JsValue → Bool
  | .undef => false
  | .str s => !s.isEmpty
  | .obj _ => true

/-- An optional string property as a `JsValue`. -/
def jsOfOpt : Option String → JsValue
  | none => .undef
  | some s => .str s

/-- `key.startsWith('_')` of `src/snoowrap.js` line 111, written as a
structurally computable test on the key's character list (for the
one-character pattern `'_'`, `startsWith` is exactly a first-character
test). -/
def startsWithUnderscore (s : String) : Bool :=
  match s.data with
  | [] => false
  | c :: _ => c == '_'

/-- `keys_for_hidden_values` (`src/snoowrap.js`, line 110). -/
def keys_for_hidden_values : List String := ["client_secret", "refresh_token", "access_token"]

/-- The own enumerable properties of a requester, in assignment order:
the five credential fields set on lines 34-38 of `src/snoowrap.js`,
then `_config` (line 39) and `_throttle` (line 40). -/
def ownProperties (c : Client) : List (String × JsValue) :=
  [("user_agent", jsOfOpt c.user_agent),
   ("client_id", jsOfOpt c.client_id),
   ("client_secret", jsOfOpt c.client_secret),
   ("refresh_token", jsOfOpt c.refresh_token),
   ("access_token", jsOfOpt c.access_token),
   ("_config", .obj "default_config"),
   ("_throttle", .obj "Promise")]

/-- The `mapValues` callback of `inspect` (`src/snoowrap.js`, lines
111-116): a key listed in `keys_for_hidden_values` displays
`value && '(redacted)'`; every other key displays its value unchanged. -/
def redactValue (key : String) (v : JsValue) : JsValue :=
  if key ∈ keys_for_hidden_values then
    (if jsTruthy v then .str "(redacted)" else v)
  else v

/-- The key/value pairs of the `formatted` object built by `inspect`
(`src/snoowrap.js`, lines 111-116): underscore-prefixed keys are omitted,
then confidential values are redacted; the returned string is
`MODULE_NAME` followed by `util.inspect(formatted)`, so its property
content is exactly these pairs. -/
def inspectPairs (c : Client) : List (String × JsValue) :=
  ((ownProperties c).filter (fun p => !startsWithUnderscore p.1)).map
    (fun p => (p.1, redactValue p.1 p.2))

/-! ## Configuration and its per-process sharing

`src/snoowrap.js` line 39 sets `this._config = require('./default_config')`
and `config(options)` (lines 76-78) runs `_.assign(this._config, options)`,
which mutates the pointed-to object in place.  Node's `require` caches a
module's exported value: every `require('./default_config')` in one
process returns the very same object.  The heap model below makes that
aliasing explicit.  The field names and default values of the
configuration record are the ones documented in the jsdoc of `config`
(`src/snoowrap.js`, lines 57-73); `default_config.js` itself is not in
the source tree, but any exported value is cached and shared the same
way, so the sharing result does not depend on its contents. -/

/-- The configuration record (spec §3; jsdoc of `config`,
`src/snoowrap.js` lines 57-73, including the documented defaults). -/
structure Config where
  endpoint_domain : String := "reddit.com"
  request_delay : Nat := 0
  continue_after_ratelimit_error : Bool := false
  retry_error_codes : List Nat := [502, 503, 504, 522]
  max_retry_attempts : Nat := 3
  suppress_warnings : Bool := false
deriving DecidableEq, Repr

/-- The object exported by `default_config.js` (all documented defaults). -/
def default_config : Config := {}

/-- One Node process running snoowrap: a heap of configuration objects
addressed by allocation order, the module cache entry for
`./default_config`, and, per constructed client, the heap address its
`_config` field holds. -/
structure Process where
  heap : List Config
  default_config_ref : Option Nat
  clients : List Nat
deriving DecidableEq, Repr

/-- A process in which no snoowrap code has run yet. -/
def Process.init : Process := ⟨[], none, []⟩

/-- `require('./default_config')`: the first call evaluates the module
and caches the address of its exported object; every later call returns
the cached address (Node module-cache semantics). -/
def require_default_config (p : Process) : Nat × Process :=
  match p.default_config_ref with
  | some r => (r, p)
  | none => (p.heap.length,
      { p with heap := p.heap ++ [default_config],
               default_config_ref := some p.heap.length })

/-- The `_config` initialization of the constructor (`src/snoowrap.js`,
line 39): the new instance stores the address `require` returned. -/
def new_client_config (p : Process) : Process :=
  let rp := require_default_config p
  { rp.2 with clients := rp.2.clients ++ [rp.1] }

/-- `config(options)` (`src/snoowrap.js`, lines 76-78):
`_.assign(this._config, options)` mutates the object at client `i`'s
`_config` address in place; the partial `options` object is rendered as
the field update `f`. -/
def config_update (p : Process) (i : Nat) (f : Config → Config) : Process :=
  match p.clients.get? i with
  | none => p
  | some r => { p with heap := p.heap.set r (f (p.heap.getD r default_config)) }

/-- The configuration values client `i` observes: the object its
`_config` address points to. -/
def observe_config (p : Process) (i : Nat) : Option Config :=
  (p.clients.get? i).bind fun r => p.heap.get? r

/-! ## The dispatch pipeline shape (spec §4.5)

`request_handler.js` is not part of the source tree; the stage sequence
of each of its entry points below is modelled from the spec.  What *is*
in the source tree is which entry point each `snoowrap.js` method calls:
the per-verb shortcuts `_get`, `_post`, ... route through
`request_handler.oauth_request` (lines 732-736), while
`check_username_availability` calls
`request_handler.unauthenticated_request` (lines 674-680). -/

/-- One stage of the dispatch sequence of spec §4.5. -/
inductive PipelineStep where
  | acquireToken
  | throttleGate
  | httpExchange
  | updateRateLimit
  | parseBody
deriving DecidableEq, Repr

/-- Which `request_handler` entry point a request goes through. -/
inductive RequestKind where
  | oauth
  | unauthenticated
deriving DecidableEq, Repr

/-- A request as handed to `request_handler`: the entry point used, the
HTTP verb, the uri, and the query string. -/
structure HttpRequest where
  kind : RequestKind
  verb : String
  uri : String
  qs : List (String × String)
deriving DecidableEq, Repr

/-- Modelled from the spec: the dispatch stages performed by each
`request_handler` entry point (`request_handler.js` is absent from the
source tree).  Spec §4.5: `oauth_request` runs (1) `ensure_valid_token`,
(2) Throttle Gate admission, (3) the HTTP exchange, (4) the rate-limit
update and body parse; unauthenticated endpoints "bypass step (1)
entirely; still pass through the Throttle Gate since they consume the
same upstream quota". -/
def pipelineSteps : RequestKind → List PipelineStep
  | .oauth => [.acquireToken, .throttleGate, .httpExchange, .updateRateLimit, .parseBody]
  | .unauthenticated => [.throttleGate, .httpExchange, .updateRateLimit, .parseBody]

/-- The per-verb shortcuts installed at `src/snoowrap.js` lines 732-736:
`_get`, `_post`, ... all call `request_handler.oauth_request`. -/
def oauthRequest (verb uri : String) (qs : List (String × String)) : HttpRequest :=
  { kind := .oauth, verb := verb, uri := uri, qs := qs }

/-- `check_username_availability` (`src/snoowrap.js`, lines 674-680):
sends a GET for `api/username_available.json` with query `{user: name}`
through `request_handler.unauthenticated_request`. -/
def check_username_availability (name : String) : HttpRequest :=
  { kind := .unauthenticated, verb := "get", uri := "api/username_available.json",
    qs := [("user", name)] }

/-! ## The dispatch loop: rate-limit check and bounded retry

`request_handler.js` is absent from the source tree; the definitions in
this section are modelled from the spec (§4.3(a), §4.4, §4.5, §8) and
from the `retry_error_codes` / `max_retry_attempts` /
`continue_after_ratelimit_error` documentation in `src/snoowrap.js`
lines 63-71.  The upstream's behaviour is abstracted as the sequence of
per-attempt outcomes `outcomes : Nat → Outcome` (`outcomes k` is what
attempt number `k` would observe). -/

/-- The outcome of one physical attempt, as classified by the Retry
Policy: transport-level success, or a failure with an HTTP status code. -/
inductive Outcome where
  | success
  | failure (status_code : Nat)
deriving DecidableEq, Repr

/-- Modelled from the spec: the retry loop of the Request Dispatcher
(spec §4.4; `request_handler.js` absent).  Starting at `attempt_count =
k`, performs one physical attempt; on a failure whose `status_code` is
in `retry_error_codes` while `attempt_count < max_retry_attempts`, it
increments `attempt_count` and resubmits; any other failure surfaces at
once.  Returns the final result and the number of physical attempts
performed. -/
def runAttempts (cfg : Config) (outcomes : Nat → Outcome) (k : Nat) :
    Except SnooError Unit × Nat :=
  match outcomes k with
  | .success => (.ok (), 1)
  | .failure code =>
    if h : code ∈ cfg.retry_error_codes ∧ k < cfg.max_retry_attempts then
      ((runAttempts cfg outcomes (k + 1)).1, (runAttempts cfg outcomes (k + 1)).2 + 1)
    else
      (.error (.RequestError code), 1)
termination_by cfg.max_retry_attempts - k
decreasing_by simp_wf; omega

/-- Modelled from the spec: one logical `dispatch` (spec §4.3(a), §4.5,
§8).  If the tracked `remaining_requests` is 0 and
`continue_after_ratelimit_error` is false, it fails with
`RateLimitExceededError` before any network exchange; otherwise the
attempt loop runs from `attempt_count = 0`.  The second component is the
number of physical attempts (network exchanges) performed. -/
def dispatch (cfg : Config) (remaining_requests : Nat) (outcomes : Nat → Outcome) :
    Except SnooError Unit × Nat :=
  if remaining_requests = 0 ∧ cfg.continue_after_ratelimit_error = false then
    (.error .RateLimitExceededError, 0)
  else
    runAttempts cfg outcomes 0

/-- An upstream that fails twice with 503 and then succeeds (the spec's
retry scenario in §8). -/
def retryOutcomes : Nat → Outcome :=
  fun i => if i < 2 then .failure 503 else .success

/-- An upstream whose first attempt fails with 404, a status code outside
the default `retry_error_codes`. -/
def hardFailOutcomes : Nat → Outcome :=
  fun _ => .failure 404

/-! ## The Throttle Gate (spec §4.3)

Modelled from the spec (`request_handler.js` absent from the source
tree; `src/snoowrap.js` line 40 only initializes the chained
`_throttle` promise).  Gate state is a single chained "not-before"
timestamp: each FIFO arrival is admitted at
`max(reach_time, not_before)` and atomically advances `not_before` to
`admission_time + request_delay`.  Times are in milliseconds. -/

/-- Modelled from the spec: the admission times, in FIFO order, of
requests reaching the Throttle Gate at times `rs`, starting from gate
state `notBefore`, with configured `request_delay = d` (spec §4.3). -/
def admissionTimes (d : Nat) (notBefore : Nat) : List Nat → List Nat
  | [] => []
  | r :: rs => max r notBefore :: admissionTimes d (max r notBefore + d) rs

/-! ## Single-flight token refresh (spec §4.1, §5)

Modelled from the spec (the credential-state code lives in the absent
`request_handler.js`): callers suspend cooperatively; an idle caller that
finds a valid token finishes, one that finds a refresh in flight awaits
the shared pending-refresh future, and one that finds neither starts the
refresh — the only transition that calls the upstream token endpoint.
Completion of the in-flight refresh validates the token and wakes every
waiting caller. -/

/-- The phase of one concurrent caller of `ensure_valid_token`. -/
inductive CallerPhase where
  | idle
  | waiting
  | done
deriving DecidableEq, Repr

/-- The shared credential state together with the callers: whether the
current access token is valid, whether a refresh is in flight, how many
calls have been made to the upstream token endpoint, and each caller's
phase. -/
structure RefreshSystem where
  tokenValid : Bool
  refreshInFlight : Bool
  tokenEndpointCalls : Nat
  callers : List CallerPhase
deriving DecidableEq, Repr

/-- `n` concurrent callers that each require a valid access token while
the current token is expired or absent. -/
def RefreshSystem.init (n : Nat) : RefreshSystem :=
  ⟨false, false, 0, List.replicate n .idle⟩

/-- Modelled from the spec: one interleaving step of the concurrent
callers (spec §4.1): `finish_valid` — an idle caller sees a valid token
and completes; `join_refresh` — an idle caller sees the in-flight
refresh and awaits the shared pending-refresh future; `start_refresh` —
an idle caller sees no valid token and no in-flight refresh, so it calls
the upstream token endpoint and publishes the shared in-flight refresh;
`complete_refresh` — the in-flight refresh resolves, the new token
becomes valid, and every waiting caller completes. -/
inductive RefreshStep : RefreshSystem → RefreshSystem → Prop where
  | finish_valid (s : RefreshSystem) (i : Nat) :
      s.callers.get? i = some .idle → s.tokenValid = true →
      RefreshStep s { s with callers := s.callers.set i .done }
  | join_refresh (s : RefreshSystem) (i : Nat) :
      s.callers.get? i = some .idle → s.tokenValid = false → s.refreshInFlight = true →
      RefreshStep s { s with callers := s.callers.set i .waiting }
  | start_refresh (s : RefreshSystem) (i : Nat) :
      s.callers.get? i = some .idle → s.tokenValid = false → s.refreshInFlight = false →
      RefreshStep s { s with callers := s.callers.set i .waiting,
                             refreshInFlight := true,
                             tokenEndpointCalls := s.tokenEndpointCalls + 1 }
  | complete_refresh (s : RefreshSystem) :
      s.refreshInFlight = true →
      RefreshStep s { s with tokenValid := true, refreshInFlight := false,
                             callers := s.callers.map
                               (fun c => if c = .waiting then .done else c) }

/-- All interleavings: the reflexive-transitive closure of the step
relation. -/
def RefreshReachable : RefreshSystem → RefreshSystem → Prop :=
  Relation.ReflTransGen RefreshStep

/-- The single-flight invariant: the token-endpoint call count is 1
exactly when the token is valid or a refresh is in flight (0 otherwise),
and any caller past its idle phase implies the token is valid or a
refresh is in flight. -/
def RefreshInv (s : RefreshSystem) : Prop :=
  s.tokenEndpointCalls = (if s.tokenValid || s.refreshInFlight then 1 else 0) ∧
  ∀ c ∈ s.callers, c ≠ CallerPhase.idle → (s.tokenValid || s.refreshInFlight) = true

end Snoowrap

namespace Snoowrap

/-! ## Theorems for claims C5, C6, C9 -/

/-- Branch-by-branch description of the constructor, used by the
credential-requirement proofs below. -/
theorem construct_eq (o : ConstructorOptions) :
    construct o =
      if optTruthy o.user_agent = false then Except.error SnooError.MissingUserAgentError
      else if credentialsOk o = false then Except.error SnooError.NoCredentialsError
      else Except.ok { user_agent := o.user_agent, client_id := o.client_id,
                       client_secret := o.client_secret, refresh_token := o.refresh_token,
                       access_token := o.access_token } := by
  unfold construct credentialsOk
  cases h1 : optTruthy o.user_agent <;> cases h2 : optTruthy o.access_token <;>
    cases h3 : optTruthy o.client_id <;> cases h4 : optTruthy o.client_secret <;>
    cases h5 : optTruthy o.refresh_token <;> simp

/-- C5: After `revoke_refresh_token` completes successfully, both the
client's `refresh_token` and its `access_token` are absent: revoking the
refresh token cascades to the access token. -/
theorem revoke_refresh_token_clears_both (c c' : Client) (net : Bool)
    (h : revoke_refresh_token c net = some c') :
    c'.refresh_token = none ∧ c'.access_token = none := by
  cases net with
  | false => simp [revoke_refresh_token] at h
  | true =>
    simp [revoke_refresh_token] at h
    subst h
    exact ⟨rfl, rfl⟩

/-- Witness for C5 at a concrete client holding both tokens. -/
theorem revoke_refresh_token_clears_both_witness :
    (Client.mk (some "ua") (some "id") (some "sec") none none).refresh_token = none ∧
    (Client.mk (some "ua") (some "id") (some "sec") none none).access_token = none :=
  revoke_refresh_token_clears_both
    (Client.mk (some "ua") (some "id") (some "sec") (some "rt") (some "at"))
    (Client.mk (some "ua") (some "id") (some "sec") none none) true rfl

/-- C6, counterexample: on the empty argument object (no `user_agent`, no
credentials) the constructor throws `MissingUserAgentError`, not
`NoCredentialsError`, so "otherwise construction fails with
`NoCredentialsError`" is false as stated. -/
theorem construct_no_user_agent_counterexample :
    credentialsOk {} = false ∧
    construct {} ≠ Except.error SnooError.NoCredentialsError ∧
    construct {} = Except.error SnooError.MissingUserAgentError := by
  refine ⟨rfl, ?_, rfl⟩
  rw [show construct {} = Except.error SnooError.MissingUserAgentError from rfl]
  simp

/-- C6 (amended): construction succeeds only if the credential condition
holds, and on an argument object whose `user_agent` is present (truthy) a
failing credential condition yields exactly `NoCredentialsError`. -/
theorem construct_credential_requirement (o : ConstructorOptions) :
    ((∃ c, construct o = Except.ok c) → credentialsOk o = true) ∧
    (optTruthy o.user_agent = true → credentialsOk o = false →
      construct o = Except.error SnooError.NoCredentialsError) := by
  constructor
  · rintro ⟨c, hc⟩
    rw [construct_eq] at hc
    by_contra hcred
    simp only [Bool.not_eq_true] at hcred
    cases h1 : optTruthy o.user_agent <;> simp [h1, hcred] at hc
  · intro hua hcred
    rw [construct_eq, hua, hcred]
    simp

/-- Witness for C6's amended theorem: with a truthy `user_agent` and no
credentials, construction fails with `NoCredentialsError`; with a truthy
`user_agent` and an access token, the credential condition indeed holds. -/
theorem construct_credential_requirement_witness :
    construct (ConstructorOptions.mk (some "my-app") none none none none) =
      Except.error SnooError.NoCredentialsError ∧
    credentialsOk (ConstructorOptions.mk (some "my-app") none none none (some "tok")) = true :=
  ⟨(construct_credential_requirement (ConstructorOptions.mk (some "my-app") none none none none)).2
      rfl rfl,
   (construct_credential_requirement
      (ConstructorOptions.mk (some "my-app") none none none (some "tok"))).1
      ⟨{ user_agent := some "my-app", client_id := none, client_secret := none,
         refresh_token := none, access_token := some "tok" }, rfl⟩⟩

/-- C9: whenever `user_agent` is absent (falsy), the constructor throws
`MissingUserAgentError`, regardless of which credentials are supplied. -/
theorem construct_missing_user_agent (o : ConstructorOptions)
    (h : optTruthy o.user_agent = false) :
    construct o = Except.error SnooError.MissingUserAgentError := by
  unfold construct
  simp [h]

/-- Witness for C9 at an argument object carrying a full set of
credentials (access token and the complete triple) but no `user_agent`. -/
theorem construct_missing_user_agent_witness :
    construct (ConstructorOptions.mk none (some "id") (some "secret") (some "rt") (some "at")) =
      Except.error SnooError.MissingUserAgentError :=
  construct_missing_user_agent
    (ConstructorOptions.mk none (some "id") (some "secret") (some "rt") (some "at")) (by decide)

/-! ## Theorems for claim C10 -/

/-- `jsTruthy` after `jsOfOpt` agrees with `optTruthy`. -/
theorem jsTruthy_jsOfOpt (o : Option String) : jsTruthy (jsOfOpt o) = optTruthy o := by
  cases o <;> rfl

/-- Evaluated form of `inspectPairs`: the two underscore-prefixed
properties are dropped, the three confidential keys display
`value && '(redacted)'`, everything else is displayed unchanged. -/
theorem inspectPairs_eq (c : Client) :
    inspectPairs c =
      [("user_agent", jsOfOpt c.user_agent),
       ("client_id", jsOfOpt c.client_id),
       ("client_secret",
         if jsTruthy (jsOfOpt c.client_secret) then JsValue.str "(redacted)"
         else jsOfOpt c.client_secret),
       ("refresh_token",
         if jsTruthy (jsOfOpt c.refresh_token) then JsValue.str "(redacted)"
         else jsOfOpt c.refresh_token),
       ("access_token",
         if jsTruthy (jsOfOpt c.access_token) then JsValue.str "(redacted)"
         else jsOfOpt c.access_token)] := rfl

/-- C10: the property list rendered by `inspect()` contains no key that
starts with an underscore, and each of `client_secret`, `refresh_token`
and `access_token`, when present (truthy), is displayed as the literal
`(redacted)` rather than as its stored value. -/
theorem inspect_hides_credentials (c : Client) :
    (∀ p ∈ inspectPairs c, startsWithUnderscore p.1 = false) ∧
    (optTruthy c.client_secret = true →
      (inspectPairs c).lookup "client_secret" = some (JsValue.str "(redacted)")) ∧
    (optTruthy c.refresh_token = true →
      (inspectPairs c).lookup "refresh_token" = some (JsValue.str "(redacted)")) ∧
    (optTruthy c.access_token = true →
      (inspectPairs c).lookup "access_token" = some (JsValue.str "(redacted)")) := by
  refine ⟨?_, ?_, ?_, ?_⟩
  · intro p hp
    rw [inspectPairs_eq] at hp
    simp only [List.mem_cons, List.not_mem_nil, or_false] at hp
    rcases hp with h | h | h | h | h <;> subst h <;> rfl
  · intro h
    have ht : jsTruthy (jsOfOpt c.client_secret) = true := by rw [jsTruthy_jsOfOpt]; exact h
    rw [inspectPairs_eq]
    simp [List.lookup, ht]
  · intro h
    have ht : jsTruthy (jsOfOpt c.refresh_token) = true := by rw [jsTruthy_jsOfOpt]; exact h
    rw [inspectPairs_eq]
    simp [List.lookup, ht]
  · intro h
    have ht : jsTruthy (jsOfOpt c.access_token) = true := by rw [jsTruthy_jsOfOpt]; exact h
    rw [inspectPairs_eq]
    simp [List.lookup, ht]

/-- Witness for C10 at a client holding all three confidential values. -/
theorem inspect_hides_credentials_witness :
    (inspectPairs (Client.mk (some "ua") (some "id") (some "sec") (some "rt") (some "at"))).lookup
        "client_secret" = some (JsValue.str "(redacted)") ∧
    (inspectPairs (Client.mk (some "ua") (some "id") (some "sec") (some "rt") (some "at"))).lookup
        "refresh_token" = some (JsValue.str "(redacted)") ∧
    (inspectPairs (Client.mk (some "ua") (some "id") (some "sec") (some "rt") (some "at"))).lookup
        "access_token" = some (JsValue.str "(redacted)") :=
  ⟨(inspect_hides_credentials (Client.mk (some "ua") (some "id") (some "sec") (some "rt")
      (some "at"))).2.1 rfl,
   (inspect_hides_credentials (Client.mk (some "ua") (some "id") (some "sec") (some "rt")
      (some "at"))).2.2.1 rfl,
   (inspect_hides_credentials (Client.mk (some "ua") (some "id") (some "sec") (some "rt")
      (some "at"))).2.2.2 rfl⟩

/-! ## Theorem for claim C8 -/

/-- C8 (evaluation at the failing input): in a fresh process, construct
clients A (index 0) and B (index 1); before any reconfiguration B
observes the defaults, but after `A.config({request_delay: 5000})` B
observes `request_delay = 5000`.  Both instances store the address of
the single module-cached `default_config` object, so configuration state
is shared across instances rather than isolated per instance. -/
theorem config_not_isolated_across_instances :
    observe_config (new_client_config (new_client_config Process.init)) 1 =
      some default_config ∧
    observe_config
        (config_update (new_client_config (new_client_config Process.init)) 0
          (fun c => { c with request_delay := 5000 })) 1 =
      some { default_config with request_delay := 5000 } ∧
    some ({ default_config with request_delay := 5000 } : Config) ≠
      observe_config (new_client_config (new_client_config Process.init)) 1 :=
  ⟨rfl, rfl, by decide⟩

/-! ## Theorem for claim C7 -/

/-- C7: the username-availability check goes through the unauthenticated
entry point, whose dispatch sequence contains no token-acquisition stage
but does contain the Throttle Gate stage, just as the authenticated
(`oauth_request`) dispatch sequence does. -/
theorem check_username_availability_bypasses_auth (name : String) :
    PipelineStep.acquireToken ∉ pipelineSteps (check_username_availability name).kind ∧
    PipelineStep.throttleGate ∈ pipelineSteps (check_username_availability name).kind ∧
    PipelineStep.throttleGate ∈ pipelineSteps (oauthRequest "get" "api/v1/me" []).kind ∧
    PipelineStep.acquireToken ∈ pipelineSteps (oauthRequest "get" "api/v1/me" []).kind :=
  ⟨(by decide : PipelineStep.acquireToken ∉ pipelineSteps RequestKind.unauthenticated),
   (by decide : PipelineStep.throttleGate ∈ pipelineSteps RequestKind.unauthenticated),
   (by decide : PipelineStep.throttleGate ∈ pipelineSteps RequestKind.oauth),
   (by decide : PipelineStep.acquireToken ∈ pipelineSteps RequestKind.oauth)⟩

/-! ## Theorems for claims C1 and C2 -/

/-- Attempt count of the retry loop started at `attempt_count = k`, when
the first success comes at attempt `S` and every earlier attempt fails
with a retryable status code. -/
theorem runAttempts_count (cfg : Config) (outcomes : Nat → Outcome) (S : Nat)
    (hS : outcomes S = .success)
    (hfail : ∀ i, i < S → ∃ c, outcomes i = .failure c ∧ c ∈ cfg.retry_error_codes) :
    ∀ k, k ≤ S → (runAttempts cfg outcomes k).2 =
      min (cfg.max_retry_attempts - k) (S - k) + 1 := by
  intro k hk
  rcases Nat.le.dest hk with ⟨n, hn⟩
  clear hk
  induction n generalizing k with
  | zero =>
    have hkS : k = S := by omega
    subst hkS
    rw [runAttempts, hS]
    simp
  | succ n ih =>
    have hkS : k < S := by omega
    obtain ⟨c, hck, hcin⟩ := hfail k hkS
    rw [runAttempts]
    split
    · rename_i heq
      rw [hck] at heq
      cases heq
    · rename_i code heq
      rw [hck] at heq
      injection heq with hcc
      subst hcc
      by_cases hklt : k < cfg.max_retry_attempts
      · rw [dif_pos ⟨hcin, hklt⟩]
        have hrec := ih (k + 1) (by omega)
        simp only [hrec]
        omega
      · rw [dif_neg (fun hcontra => hklt hcontra.2)]
        have hmin : min (cfg.max_retry_attempts - k) (S - k) = 0 := by omega
        simp [hmin]

/-- C1: a dispatch admitted past the rate-limit check whose failing
attempts all carry a status code in `retry_error_codes` performs exactly
`min(max_retry_attempts, attempts until success) + 1` physical attempts;
a dispatch whose first attempt fails with a status code outside
`retry_error_codes` performs exactly one physical attempt. -/
theorem dispatch_attempt_count (cfg : Config) (rr : Nat) (outcomes : Nat → Outcome)
    (hgate : ¬(rr = 0 ∧ cfg.continue_after_ratelimit_error = false)) :
    (∀ S, outcomes S = .success →
      (∀ i, i < S → ∃ c, outcomes i = .failure c ∧ c ∈ cfg.retry_error_codes) →
      (dispatch cfg rr outcomes).2 = min cfg.max_retry_attempts S + 1) ∧
    (∀ c, outcomes 0 = .failure c → c ∉ cfg.retry_error_codes →
      (dispatch cfg rr outcomes).2 = 1) := by
  constructor
  · intro S hS hfail
    rw [dispatch, if_neg hgate]
    have := runAttempts_count cfg outcomes S hS hfail 0 (Nat.zero_le S)
    simpa using this
  · intro c hc hcnot
    rw [dispatch, if_neg hgate, runAttempts]
    split
    · rename_i heq
      rw [hc] at heq
    · rename_i code heq
      rw [hc] at heq
      injection heq with hcc
      subst hcc
      rw [dif_neg (fun hcontra => hcnot hcontra.1)]

/-- Witness for C1: with the documented default configuration
(`retry_error_codes = [502, 503, 504, 522]`, `max_retry_attempts = 3`)
and quota left, the 503-503-success upstream takes 3 physical attempts
(the spec's §8 scenario) and the 404 upstream takes exactly one. -/
theorem dispatch_attempt_count_witness :
    (dispatch default_config 600 retryOutcomes).2 = 3 ∧
    (dispatch default_config 600 hardFailOutcomes).2 = 1 := by
  constructor
  · have h := (dispatch_attempt_count default_config 600 retryOutcomes
      (by simp)).1 2 rfl
      (by
        intro i hi
        exact ⟨503, by simp [retryOutcomes, hi], by decide⟩)
    simpa using h
  · exact (dispatch_attempt_count default_config 600 hardFailOutcomes
      (by simp)).2 404 rfl (by decide)

/-- C2: when the tracked `remaining_requests` is 0 and
`continue_after_ratelimit_error` is false, `dispatch` fails with
`RateLimitExceededError` having performed zero network exchanges. -/
theorem dispatch_ratelimit_rejects (cfg : Config) (rr : Nat) (outcomes : Nat → Outcome)
    (h0 : rr = 0) (hc : cfg.continue_after_ratelimit_error = false) :
    dispatch cfg rr outcomes = (.error .RateLimitExceededError, 0) := by
  rw [dispatch, if_pos ⟨h0, hc⟩]

/-- Witness for C2: the default configuration has
`continue_after_ratelimit_error = false`, and at `remaining_requests = 0`
the dispatch is rejected without a network exchange even though the
upstream would have answered with a success. -/
theorem dispatch_ratelimit_rejects_witness :
    dispatch default_config 0 (fun _ => Outcome.success) =
      (Except.error SnooError.RateLimitExceededError, 0) :=
  dispatch_ratelimit_rejects default_config 0 (fun _ => Outcome.success) rfl rfl

/-! ## Theorems for claim C3 -/

/-- Every admission time produced from gate state `nb` is at least `nb`
(the gate never admits before its chained "not-before" timestamp). -/
theorem admissionTimes_head_ge (d nb : Nat) (rs : List Nat) :
    ∀ x ∈ (admissionTimes d nb rs).head?, nb ≤ x := by
  cases rs with
  | nil => intro x hx; simp [admissionTimes] at hx
  | cons r rs =>
    intro x hx
    simp [admissionTimes] at hx
    subst hx
    exact Nat.le_max_right r nb

/-- Successive admission times are at least `d` apart. -/
theorem admissionTimes_chain (d : Nat) (rs : List Nat) (nb : Nat) :
    List.Chain' (fun a b => a + d ≤ b) (admissionTimes d nb rs) := by
  induction rs generalizing nb with
  | nil => simp [admissionTimes]
  | cons r rs ih =>
    rw [admissionTimes]
    rw [List.chain'_cons']
    refine ⟨?_, ih (max r nb + d)⟩
    intro y hy
    exact admissionTimes_head_ge d (max r nb + d) rs y hy

/-- C3: with `request_delay = d > 0`, any two successive admissions of
FIFO-queued requests through the Throttle Gate are at least `d`
milliseconds apart, whatever the times at which the requests reach the
gate and whatever the initial gate state. -/
theorem throttle_gate_spacing (d nb : Nat) (rs : List Nat) (hd : 0 < d)
    (i : Nat) (h : i + 1 < (admissionTimes d nb rs).length) :
    (admissionTimes d nb rs).get ⟨i, by omega⟩ + d ≤
      (admissionTimes d nb rs).get ⟨i + 1, h⟩ := by
  have hchain := admissionTimes_chain d rs nb
  exact List.chain'_iff_get.mp hchain i (by omega)

/-- Witness for C3: the spec's §8 scenario — `request_delay = 100`,
requests reaching the gate at t=0 and t=10 are admitted at t=0 and
t=100, 100 ms apart. -/
theorem throttle_gate_spacing_witness :
    (admissionTimes 100 0 [0, 10]).get ⟨0, by decide⟩ + 100 ≤
      (admissionTimes 100 0 [0, 10]).get ⟨1, by decide⟩ :=
  throttle_gate_spacing 100 0 [0, 10] (by decide) 0 (by decide)

/-! ## Theorems for claim C4 -/

/-- Each step preserves the single-flight invariant. -/
theorem refreshInv_step {s t : RefreshSystem} (hInv : RefreshInv s)
    (h : RefreshStep s t) : RefreshInv t := by
  obtain ⟨h1, h2⟩ := hInv
  cases h with
  | finish_valid i hidle hvalid =>
    refine ⟨by simpa using h1, ?_⟩
    intro c hc hne
    simp [hvalid]
  | join_refresh i hidle hvalid hin =>
    refine ⟨by simpa using h1, ?_⟩
    intro c hc hne
    simp [hin]
  | start_refresh i hidle hvalid hin =>
    refine ⟨?_, ?_⟩
    · simp only at h1 ⊢
      rw [hvalid, hin] at h1
      simp at h1
      simp [h1]
    · intro c hc hne
      simp
  | complete_refresh hin =>
    refine ⟨?_, ?_⟩
    · simp only at h1 ⊢
      rw [hin] at h1
      simp at h1
      simp [h1]
    · intro c hc hne
      simp

/-- The invariant holds in every reachable state. -/
theorem refreshInv_reachable {s t : RefreshSystem} (hInv : RefreshInv s)
    (h : RefreshReachable s t) : RefreshInv t := by
  induction h with
  | refl => exact hInv
  | tail hab hbc ih => exact refreshInv_step ih hbc

/-- No step changes the number of callers. -/
theorem refresh_callers_length {s t : RefreshSystem} (h : RefreshReachable s t) :
    t.callers.length = s.callers.length := by
  induction h with
  | refl => rfl
  | tail hab hbc ih =>
    cases hbc with
    | finish_valid i hidle hvalid => simpa using ih
    | join_refresh i hidle hvalid hin => simpa using ih
    | start_refresh i hidle hvalid hin => simpa using ih
    | complete_refresh hin => simpa using ih

/-- C4: starting from `n ≥ 1` concurrent callers that all need a valid
token while none is present, every interleaving in which all callers
have completed has made exactly one call to the upstream token
endpoint. -/
theorem single_flight_refresh (n : Nat) (s : RefreshSystem) (hn : 0 < n)
    (hreach : RefreshReachable (RefreshSystem.init n) s)
    (hdone : ∀ c ∈ s.callers, c = CallerPhase.done) :
    s.tokenEndpointCalls = 1 := by
  have hInv0 : RefreshInv (RefreshSystem.init n) := by
    refine ⟨by simp [RefreshSystem.init], ?_⟩
    intro c hc hne
    exfalso
    exact hne (List.eq_of_mem_replicate hc)
  obtain ⟨h1, h2⟩ := refreshInv_reachable hInv0 hreach
  have hlen : s.callers.length = n := by
    have hl := refresh_callers_length hreach
    simpa [RefreshSystem.init] using hl
  have hne : s.callers ≠ [] := by
    intro hnil
    rw [hnil] at hlen
    simp at hlen
    omega
  obtain ⟨c, hc⟩ := List.exists_mem_of_ne_nil s.callers hne
  have hflags := h2 c hc (by rw [hdone c hc]; intro hcon; cases hcon)
  rw [hflags] at h1
  simpa using h1

/-- Witness for C4: two callers, an explicit interleaving — caller 0
starts the refresh, caller 1 joins it, the refresh completes — ends with
both callers done and exactly one token-endpoint call. -/
theorem single_flight_refresh_witness :
    (RefreshSystem.mk true false 1 [CallerPhase.done, CallerPhase.done]).tokenEndpointCalls = 1 := by
  have h1 : RefreshStep (RefreshSystem.init 2)
      (RefreshSystem.mk false true 1 [CallerPhase.waiting, CallerPhase.idle]) :=
    RefreshStep.start_refresh (RefreshSystem.init 2) 0 rfl rfl rfl
  have h2 : RefreshStep (RefreshSystem.mk false true 1 [CallerPhase.waiting, CallerPhase.idle])
      (RefreshSystem.mk false true 1 [CallerPhase.waiting, CallerPhase.waiting]) :=
    RefreshStep.join_refresh (RefreshSystem.mk false true 1
      [CallerPhase.waiting, CallerPhase.idle]) 1 rfl rfl rfl
  have h3 : RefreshStep (RefreshSystem.mk false true 1 [CallerPhase.waiting, CallerPhase.waiting])
      (RefreshSystem.mk true false 1 [CallerPhase.done, CallerPhase.done]) :=
    RefreshStep.complete_refresh (RefreshSystem.mk false true 1
      [CallerPhase.waiting, CallerPhase.waiting]) rfl
  have hreach : RefreshReachable (RefreshSystem.init 2)
      (RefreshSystem.mk true false 1 [CallerPhase.done, CallerPhase.done]) :=
    Relation.ReflTransGen.tail (Relation.ReflTransGen.tail
      (Relation.ReflTransGen.tail Relation.ReflTransGen.refl h1) h2) h3
  exact single_flight_refresh 2
    (RefreshSystem.mk true false 1 [CallerPhase.done, CallerPhase.done])
    (by decide) hreach (by decide)

end Snoowrap
